import Mathlib

/-!
Verification development for the ClusterChainDynamics repository.

The physical quantities of the source (numpy float64 scalars and 3-vectors)
are embedded as exact rationals (`ℚ`) and functions `Fin 3 → ℚ`.  Where the
floating-point code can produce a non-finite value (NaN or ±Inf, e.g. from an
unguarded division by zero) the affected component is embedded as
`Option ℚ`, with `none` standing for any non-finite float; the helper
operations below propagate `none` exactly as IEEE arithmetic propagates
NaN/Inf through the expressions that actually occur in this code base.

Python-level failures (TypeError, ValueError, AttributeError, ImportError)
are embedded with `Except String` or explicit outcome types.
-/

namespace ClusterChainDynamics

/-- A 3-vector of exact rationals, embedding a numpy float64 array of shape (3,). -/
abbrev Vec3 : Type := Fin 3 → ℚ

/-- The 6-dimensional phase-space vector `[x, y, z, vx, vy, vz]`. -/
abbrev Vec6 : Type := Fin 6 → ℚ

/-- Slice `pos_and_vel[0:3]` of a 6-vector. -/
def slicePos (s : Vec6) : Vec3 := fun i => s ⟨(i : ℕ), by omega⟩

/-- Slice `pos_and_vel[3:6]` of a 6-vector. -/
def sliceVel (s : Vec6) : Vec3 := fun i => s ⟨(i : ℕ) + 3, by omega⟩

/-- Concatenation `np.concatenate((v, a))` of two 3-vectors into a 6-vector. -/
def np_concatenate (v a : Vec3) : Vec6 := fun i =>
  if h : (i : ℕ) < 3 then v ⟨(i : ℕ), h⟩ else a ⟨(i : ℕ) - 3, by omega⟩

/-- Embedding of `propagate` from `simulations/calculate_path.py` (lines 14-40):
splits the 6-vector into `pos = pos_and_vel[0:3]` and `vel = pos_and_vel[3:6]`,
computes `a_f = calculate_a_f(t, pos)`, then `a_g = calculate_a_g(pos)`,
sums `a = a_g + a_f` and returns `np.concatenate((vel, a))`. -/
def propagate (t : ℚ) (pos_and_vel : Vec6)
    (calculate_a_g : Vec3 → Vec3) (calculate_a_f : ℚ → Vec3 → Vec3) : Vec6 :=
  let pos := slicePos pos_and_vel
  let vel := sliceVel pos_and_vel
  let a_f := calculate_a_f t pos
  let a_g := calculate_a_g pos
  let a := a_g + a_f
  np_concatenate vel a

/-- Embedding of `constant_feedback` from `forces/feedback/constant.py`:
the Python body is `return a_0`, the third positional parameter, whatever
the runtime types of the arguments are; the embedding is therefore
polymorphic in all three parameter types. -/
def constant_feedback {α β γ : Type} (_t : α) (_pos : β) (a_0 : γ) : γ := a_0

/-- Embedding of `squared_potential_force` from `forces/gravity/squared.py`:
`a = - a_0 * pos` elementwise. -/
def squared_potential_force (pos a_0 : Vec3) : Vec3 := fun i => -(a_0 i * pos i)

/-- Embedding of the feedback-model resolution step of `single_object_solve`
(`calculate_path.py` line 87): `feedback_func = partial(feedback_func,
feedback_params)` binds `feedback_params` to the FIRST positional parameter of
`constant_feedback`, which is `t`; the subsequent call sites pass `(t, pos)`,
which land in the `pos` and `a_0` slots. -/
def bound_constant_feedback {α : Type} (feedback_params : α) : ℚ → Vec3 → Vec3 :=
  fun t pos => constant_feedback feedback_params t pos

/-- Embedding of the derivative function `single_object_solve` hands to
`solve_ivp` when `feedback_func` is the name string `"constant_feedback"`
and `potential_func` is (or has resolved to) the callable `g`:
`_propagate = partial(propagate, calculate_a_f=feedback_func,
calculate_a_g=potential_func)` with `feedback_func` the bound model above. -/
def single_object_derivative_constant_feedback {α : Type}
    (g : Vec3 → Vec3) (feedback_params : α) : ℚ → Vec6 → Vec6 :=
  fun t y => propagate t y g (bound_constant_feedback feedback_params)

/-- C1: for every time, 6-vector state, gravity function and feedback function,
`propagate` returns the 6-vector whose first three components are the velocity
slice `s[3:6]` and whose last three components are
`g(s[0:3]) + f(t, s[0:3])` — the first-order reduction of the second-order ODE. -/
theorem propagate_is_first_order_reduction
    (t : ℚ) (s : Vec6) (g : Vec3 → Vec3) (f : ℚ → Vec3 → Vec3) (i : Fin 3) :
    propagate t s g f ⟨(i : ℕ), by omega⟩ = s ⟨(i : ℕ) + 3, by omega⟩ ∧
    propagate t s g f ⟨(i : ℕ) + 3, by omega⟩ =
      g (slicePos s) i + f t (slicePos s) i := by
  refine ⟨?_, ?_⟩ <;>
    · simp only [propagate, np_concatenate, sliceVel, slicePos]
      fin_cases i <;> simp [Pi.add_apply]

/-- Concrete parameter vector `a_0 = (5, 5, 5)` for exhibiting the
mis-binding of `feedback_params`. -/
def c2_params : Vec3 := fun _ => 5

/-- Concrete phase-space state `[1, 2, 3, 0, 0, 0]` for exhibiting the
mis-binding of `feedback_params`. -/
def c2_state : Vec6 := np_concatenate (fun i => (i : ℕ) + 1) (fun _ => 0)

/-- C2: the derivative `single_object_solve` composes for the name
`"constant_feedback"` does NOT add the bound parameter vector `a_0`: because
`feedback_params` is bound to the `t` slot, the `a_0` slot receives the
position, so the acceleration half evaluates to `g(pos) + pos` for every
time, state and parameter value; in particular with zero gravity,
`a_0 = (5,5,5)` and `pos = (1,2,3)` the first acceleration component is `1`,
not `5` as the claim requires. -/
theorem single_object_derivative_constant_feedback_returns_position :
    (∀ (α : Type) (g : Vec3 → Vec3) (p : α) (t : ℚ) (y : Vec6) (i : Fin 3),
      single_object_derivative_constant_feedback g p t y ⟨(i : ℕ) + 3, by omega⟩ =
        g (slicePos y) i + slicePos y i) ∧
    single_object_derivative_constant_feedback (fun _ _ => 0) c2_params 0 c2_state
        ⟨3, by omega⟩ = 1 ∧
    (1 : ℚ) ≠ (fun (_ : Vec3) (_ : Fin 3) => (0 : ℚ)) (slicePos c2_state) 0 +
        c2_params 0 := by
  refine ⟨fun α g p t y i => ?_, ?_, by norm_num [c2_params]⟩
  · simp only [single_object_derivative_constant_feedback, bound_constant_feedback,
      constant_feedback, propagate, np_concatenate, slicePos, sliceVel]
    fin_cases i <;> simp [Pi.add_apply, slicePos]
  · norm_num [single_object_derivative_constant_feedback, bound_constant_feedback,
      constant_feedback, propagate, np_concatenate, slicePos, sliceVel, c2_state,
      c2_params]

/-- A 3-vector whose components may be non-finite: `none` stands for a NaN or
±Inf float64 component, `some q` for the finite value `q`. -/
abbrev NVec3 : Type := Fin 3 → Option ℚ

/-- Addition of possibly-non-finite scalars: finite + finite is exact; any
operand that is NaN/±Inf produces a non-finite result (for `inf + (-inf)` the
result is NaN — still non-finite, hence still `none`). -/
def np_add : Option ℚ → Option ℚ → Option ℚ
  | some a, some b => some (a + b)
  | _, _ => none

/-- Multiplication of possibly-non-finite scalars; as with `np_add`, every
case with a non-finite operand yields a non-finite result (`inf * 0` is NaN). -/
def np_mul : Option ℚ → Option ℚ → Option ℚ
  | some a, some b => some (a * b)
  | _, _ => none

/-- Division of possibly-non-finite scalars.  float64 division of a finite
numerator by zero yields ±Inf, and `0.0 / 0.0` yields NaN — non-finite either
way, hence `none`.  A non-finite numerator stays non-finite.  (IEEE maps a
finite numerator over an infinite denominator to `0.0`; that combination is
unreachable in this code base — every divisor is either `current_mass`, which
only ever changes by finite decrements, or a norm already guarded to be a
finite positive number — so it is folded into the `none` default here.) -/
def np_div : Option ℚ → Option ℚ → Option ℚ
  | some a, some b => if b = 0 then none else some (a / b)
  | _, _ => none

/-- Floor integer square root by bounded search; exact on perfect squares. -/
def isqrt (n : ℕ) : ℕ := ((List.range (n + 1)).filter fun k => k * k ≤ n).foldl max 0

/-- Square root on ℚ: exact whenever the argument is the square of a rational
(the case in every concrete state appearing in this development), and a
floor-style approximation otherwise — mirroring that the float64
`np.linalg.norm` is itself inexact there.  It is positive exactly on positive
arguments, so the `velocity_magnitude > 0` guard of the source is modelled
faithfully on all inputs. -/
def ratSqrt (q : ℚ) : ℚ := mkRat (isqrt q.num.toNat) (isqrt q.den)

/-- Embedding of `np.linalg.norm` on a 3-vector: the Euclidean norm
`sqrt(v₀² + v₁² + v₂²)`; `none` (NaN) when any component is non-finite. -/
def np_linalg_norm (v : NVec3) : Option ℚ :=
  match v 0, v 1, v 2 with
  | some a, some b, some c => some (ratSqrt (a * a + b * b + c * c))
  | _, _, _ => none

/-- The two concrete subclasses of `CompactObject` in the repository, with the
constructor parameters each subclass adds beyond the base dataclass fields:
`StarCluster(mass_loss_rate)` and
`SelfPropellingMolecularCloud(feedback_factor, mass_loss_rate)`. -/
inductive Variant where
  | starCluster (mass_loss_rate : ℚ)
  | selfPropellingMolecularCloud (feedback_factor : ℚ) (mass_loss_rate : ℚ)
deriving DecidableEq

/-- Embedding of the `CompactObject` dataclass state (`core/compact_object.py`)
together with the subclass tag.  The `current_position` and
`current_velocity` components are possibly-non-finite (`NVec3`) because the
unguarded division in `propagate` can write NaN into them; `current_mass` and
`current_time` only ever change by finite increments and stay exact. -/
structure CompactObject where
  variant : Variant
  initial_mass : ℚ
  initial_position : Vec3
  initial_velocity : Vec3
  initial_time : Option ℚ
  current_mass : ℚ
  current_position : NVec3
  current_velocity : NVec3
  current_time : ℚ

/-- Embedding of construction (`__init__` of either subclass followed by the
dataclass `__post_init__`, lines 28-42): the current fields start as copies of
the initial ones, and `current_time` starts at `initial_time` when given and
at `0.0` when it was omitted (`None`). -/
def mkCompactObject (variant : Variant) (initial_mass : ℚ)
    (initial_position initial_velocity : Vec3) (initial_time : Option ℚ) :
    CompactObject :=
  { variant, initial_mass, initial_position, initial_velocity, initial_time,
    current_mass := initial_mass,
    current_position := fun i => some (initial_position i),
    current_velocity := fun i => some (initial_velocity i),
    current_time := initial_time.getD 0 }

/-- Embedding of `CompactObject.get_age` (lines 58-60):
`current_time - (initial_time if initial_time is not None else 0.0)`. -/
def CompactObject.get_age (self : CompactObject) : ℚ :=
  self.current_time - self.initial_time.getD 0

/-- Embedding of `calculate_feedback_force_and_massloss` of the two
subclasses.  `StarCluster` (`star_cluster.py`): zero force and the constant
mass-loss rate.  `SelfPropellingMolecularCloud` (`self_propelling_mc.py`,
lines 67-89): the direction of travel is the normalized current velocity when
`velocity_magnitude > 0` and the zero vector otherwise (a NaN magnitude
compares false, so a poisoned velocity also takes the zero branch); the force
is `current_mass * feedback_factor * direction`. -/
def CompactObject.calculate_feedback_force_and_massloss (self : CompactObject) :
    NVec3 × ℚ :=
  match self.variant with
  | .starCluster mass_loss_rate => (fun _ => some 0, mass_loss_rate)
  | .selfPropellingMolecularCloud feedback_factor mass_loss_rate =>
    let velocity_magnitude := np_linalg_norm self.current_velocity
    let direction : NVec3 :=
      match velocity_magnitude with
      | some m =>
        if 0 < m then fun i => np_div (self.current_velocity i) (some m)
        else fun _ => some 0
      | none => fun _ => some 0
    (fun i => np_mul (np_mul (some self.current_mass) (some feedback_factor))
        (direction i),
      mass_loss_rate)

/-- Embedding of `CompactObject._update` (lines 82-103): velocity is advanced
first, position is advanced with the already-updated velocity, the mass is
decremented and clamped at zero, and the clock advances. -/
def CompactObject._update (self : CompactObject) (dt dm : ℚ)
    (acceleration : NVec3) : CompactObject :=
  let current_velocity : NVec3 :=
    fun i => np_add (self.current_velocity i) (np_mul (acceleration i) (some dt))
  let current_position : NVec3 :=
    fun i => np_add (self.current_position i) (np_mul (current_velocity i) (some dt))
  let m := self.current_mass - dm
  { self with
    current_velocity := current_velocity,
    current_position := current_position,
    current_mass := if m < 0 then 0 else m,
    current_time := self.current_time + dt }

/-- Embedding of `CompactObject.propagate` (lines 110-134): obtains
`(f_f, mdot)` from the subclass, converts the force to an acceleration by
dividing by the CURRENT mass with no guard against a zero mass, adds the
gravitational acceleration, and applies `_update` with `dm = mdot * dt`. -/
def CompactObject.propagate (self : CompactObject) (dt : ℚ) (a_g : Vec3) :
    CompactObject :=
  let fm := self.calculate_feedback_force_and_massloss
  let a_f : NVec3 := fun i => np_div (fm.1 i) (some self.current_mass)
  let a : NVec3 := fun i => np_add (some (a_g i)) (a_f i)
  self._update dt (fm.2 * dt) a

/-- A finite sequence of `propagate(dt, a_g)` calls, applied in order. -/
def propagateMany (self : CompactObject) (steps : List (ℚ × Vec3)) :
    CompactObject :=
  steps.foldl (fun o s => o.propagate s.1 s.2) self

/-- Embedding of `np.sign` on a float64 scalar. -/
def np_sign (q : ℚ) : ℚ := if 0 < q then 1 else if q < 0 then -1 else 0

/-- The message of the ValueError numpy raises when a boolean array with more
than one element is forced into a scalar truth context. -/
def ambiguous_truth_message : String :=
  "ValueError: The truth value of an array with more than one element is ambiguous. Use a.any() or a.all()"

/-- Embedding of `bool(array)`, the coercion Python applies to the condition
of a conditional expression: a one-element array converts to its element,
while an array with more than one element raises ValueError. -/
def np_bool_of_array {n : ℕ} (xs : Fin n → Bool) : Except String Bool :=
  if h : n = 1 then .ok (xs ⟨0, by omega⟩) else .error ambiguous_truth_message

/-- Embedding of `linear_feedback_no_sign_flip` from
`forces/feedback/linear_time.py` (lines 25-47): computes `a = a_0 + a_1 * t`
and returns `a if np.sign(a) == np.sign(a_0) else 0.` — the comparison is an
elementwise boolean array which the conditional expression forces through
`bool(...)`; the `else` branch would return the scalar float `0.0`, hence the
sum result type. -/
def linear_feedback_no_sign_flip (t : ℚ) (_pos : Vec3) (a_0 a_1 : Vec3) :
    Except String (Vec3 ⊕ ℚ) :=
  let a : Vec3 := fun i => a_0 i + a_1 i * t
  match np_bool_of_array (fun i : Fin 3 => decide (np_sign (a i) = np_sign (a_0 i))) with
  | .error e => .error e
  | .ok true => .ok (.inl a)
  | .ok false => .ok (.inr 0)

/-- The message of the TypeError CPython raises when a keyword argument is
passed to the builtin `sum`. -/
def sum_no_keyword_message : String := "TypeError: sum() takes no keyword arguments"

/-- Embedding of the BUILTIN Python `sum(iterable, start=0)`: it accepts no
keyword arguments, so a call that passes one (such as `axis=1`) raises
TypeError; without one it left-folds addition over the iterable. -/
def py_builtin_sum {α : Type} [Zero α] [Add α] (xs : List α) (axis : Option ℕ) :
    Except String α :=
  match axis with
  | some _ => .error sum_no_keyword_message
  | none => .ok (xs.foldl (fun acc x => acc + x) 0)

/-- Embedding of `pulsed_feedback` from `forces/feedback/pulsed_time.py`
(lines 4-29).  `np.exp` has no exact rational counterpart and is taken as a
parameter `np_exp` (its values cannot influence the result below).  The code
computes `all_a = a_0 * np.exp(-(t - t_pulse)**2/sigma_t*2)` — a `(3, n)`
array, whose iteration yields its 3 rows — and then calls
`sum(all_a, axis=1)`: the module imports only numpy, so `sum` is the builtin,
and the `axis` keyword raises TypeError before any summation happens. -/
def pulsed_feedback {npulses : ℕ} (np_exp : ℚ → ℚ) (t : ℚ) (_pos : Vec3)
    (a_0 : Fin 3 → Fin npulses → ℚ) (t_pulse sigma_t : Fin npulses → ℚ) :
    Except String (Fin npulses → ℚ) :=
  let all_a : Fin 3 → Fin npulses → ℚ :=
    fun i j => a_0 i j * np_exp (-(t - t_pulse j) ^ 2 / sigma_t j * 2)
  py_builtin_sum ((List.finRange 3).map fun i => all_a i) (some 1)

/-- The three entries of the `potential_map` registry in
`forces/gravity/galpy_wrapper.py`; the Cartesian wrapper each entry is turned
into is irrelevant to the resolution claim and is not modelled further. -/
inductive GalpyPotential where
  | miyamotoNagai
  | nfwPotential
  | hernquistPotential
deriving DecidableEq

/-- Embedding of `_get_galpy_potential`: `None` when the external galpy
library is absent (`has_galpy = false`) or when the name is not one of the
three registry keys. -/
def _get_galpy_potential (has_galpy : Bool) (potential_type : String) :
    Option GalpyPotential :=
  if has_galpy then
    if potential_type = "MiyamotoNagai" then some .miyamotoNagai
    else if potential_type = "NFWPotential" then some .nfwPotential
    else if potential_type = "HernquistPotential" then some .hernquistPotential
    else none
  else none

/-- Embedding of `getattr(gravity, potential_func)`: the public binding of the
`forces.gravity` package is `squared_potential_force` (per its `__init__`);
any other name raises AttributeError.  (Incidental module attributes such as
the `squared` submodule object are not force models and are omitted; they
would resolve to non-callables and fail later with a TypeError, not with the
descriptive error either.) -/
def gravity_getattr (name : String) : Option (Vec3 → Vec3 → Vec3) :=
  if name = "squared_potential_force" then some squared_potential_force else none

/-- Possible outcomes of the potential-resolution step of
`single_object_solve` (`calculate_path.py` lines 67-79). -/
inductive PotentialResolution where
  | resolvedGalpy (p : GalpyPotential)
  | resolvedBuiltin (f : Vec3 → Vec3 → Vec3)
  | attributeError (attr : String)
  | descriptiveImportError (potential_name : String)

/-- Embedding of the potential-resolution step of `single_object_solve` for a
name string: galpy lookup first; on `None`, `getattr(gravity, name)` inside a
`try` block whose handler catches only ImportError.  A failed `getattr`
raises AttributeError, which that handler does NOT match, so the failure
propagates as a bare AttributeError and the descriptive
`ImportError("single_object_solve: potential provided (...) not in galpy or
this libary")` raise — represented by `.descriptiveImportError`, which
carries the offending name — is unreachable.  The binding of
`potential_params` into the resolved builtin is outside this claim and not
modelled. -/
def resolve_potential (has_galpy : Bool) (name : String) : PotentialResolution :=
  match _get_galpy_potential has_galpy name with
  | some p => .resolvedGalpy p
  | none =>
    match gravity_getattr name with
    | some f => .resolvedBuiltin f
    | none => .attributeError name

/-- The concrete scenario of the spec: a `SelfPropellingMolecularCloud` with
mass 100, position (0,0,0), velocity (1,0,0), feedback_factor 2 and
mass_loss_rate 0.5, constructed with no initial time. -/
def c3_cloud : CompactObject :=
  mkCompactObject (.selfPropellingMolecularCloud 2 (1/2)) 100
    (fun _ => 0) ![1, 0, 0] none

/-- A `SelfPropellingMolecularCloud` whose mass is exhausted by a single step:
mass 1, velocity (1,0,0), feedback_factor 1, mass_loss_rate 1. -/
def c7_cloud : CompactObject :=
  mkCompactObject (.selfPropellingMolecularCloud 1 1) 1
    (fun _ => 0) ![1, 0, 0] none

/-- C3: `propagate(dt, a_g)` obtains `(force, mdot)` from the variant, forms
the total acceleration `a_g + force / current_mass`, then updates the
velocity by `a·dt`, then the position by the ALREADY-UPDATED velocity times
`dt`, then the mass by `-mdot·dt` clamped at zero, then the time by `dt`; and
the concrete cloud of the spec scenario, propagated `dt = 1` under zero
gravity, ends with mass 99.5, velocity (3,0,0), position (3,0,0), time 1. -/
theorem compact_object_propagate_semi_implicit_euler_scenario :
    (∀ (obj : CompactObject) (dt : ℚ) (a_g : Vec3) (i : Fin 3),
      (obj.propagate dt a_g).current_velocity i =
        np_add (obj.current_velocity i)
          (np_mul (np_add (some (a_g i))
            (np_div (obj.calculate_feedback_force_and_massloss.1 i)
              (some obj.current_mass))) (some dt))) ∧
    (∀ (obj : CompactObject) (dt : ℚ) (a_g : Vec3) (i : Fin 3),
      (obj.propagate dt a_g).current_position i =
        np_add (obj.current_position i)
          (np_mul ((obj.propagate dt a_g).current_velocity i) (some dt))) ∧
    (∀ (obj : CompactObject) (dt : ℚ) (a_g : Vec3),
      (obj.propagate dt a_g).current_mass =
        max 0 (obj.current_mass -
          obj.calculate_feedback_force_and_massloss.2 * dt)) ∧
    (∀ (obj : CompactObject) (dt : ℚ) (a_g : Vec3),
      (obj.propagate dt a_g).current_time = obj.current_time + dt) ∧
    ((c3_cloud.propagate 1 (fun _ => 0)).current_mass = 199/2 ∧
      (c3_cloud.propagate 1 (fun _ => 0)).current_velocity =
        ![some 3, some 0, some 0] ∧
      (c3_cloud.propagate 1 (fun _ => 0)).current_position =
        ![some 3, some 0, some 0] ∧
      (c3_cloud.propagate 1 (fun _ => 0)).current_time = 1) := by
  have hs : ratSqrt 1 = 1 := by norm_num [ratSqrt]; decide
  refine ⟨fun obj dt a_g i => rfl, fun obj dt a_g i => rfl, ?_, fun obj dt a_g => rfl,
    ?_, ?_, ?_, ?_⟩
  · intro obj dt a_g
    simp only [CompactObject.propagate, CompactObject._update]
    rcases lt_or_le (obj.current_mass -
        obj.calculate_feedback_force_and_massloss.2 * dt) 0 with h | h
    · rw [if_pos h, max_eq_left h.le]
    · rw [if_neg (not_lt.mpr h), max_eq_right h]
  · simp only [c3_cloud, mkCompactObject, CompactObject.propagate,
      CompactObject._update, CompactObject.calculate_feedback_force_and_massloss,
      np_linalg_norm, np_add, np_mul, np_div]
    norm_num [hs]
  · funext i
    fin_cases i <;>
      simp only [c3_cloud, mkCompactObject, CompactObject.propagate,
        CompactObject._update, CompactObject.calculate_feedback_force_and_massloss,
        np_linalg_norm, np_add, np_mul, np_div] <;>
      norm_num [hs]
  · funext i
    fin_cases i <;>
      simp only [c3_cloud, mkCompactObject, CompactObject.propagate,
        CompactObject._update, CompactObject.calculate_feedback_force_and_massloss,
        np_linalg_norm, np_add, np_mul, np_div] <;>
      norm_num [hs]
  · simp only [c3_cloud, mkCompactObject, CompactObject.propagate,
      CompactObject._update]
    norm_num

/-- Mass is clamped at zero by `_update`, so a single `propagate` step always
leaves a non-negative mass, whatever the state before the step was. -/
lemma propagate_mass_nonneg (obj : CompactObject) (dt : ℚ) (a_g : Vec3) :
    0 ≤ (obj.propagate dt a_g).current_mass := by
  simp only [CompactObject.propagate, CompactObject._update]
  rcases lt_or_le (obj.current_mass -
      obj.calculate_feedback_force_and_massloss.2 * dt) 0 with h | h
  · rw [if_pos h]
  · rw [if_neg (not_lt.mpr h)]; exact h

/-- Propagating any number of further steps from a state whose mass is
non-negative keeps the mass non-negative. -/
lemma propagateMany_mass_nonneg (steps : List (ℚ × Vec3)) :
    ∀ obj : CompactObject, 0 ≤ obj.current_mass →
      0 ≤ (propagateMany obj steps).current_mass := by
  induction steps with
  | nil => exact fun obj h => h
  | cons s rest ih =>
    exact fun obj _ => ih (obj.propagate s.1 s.2) (propagate_mass_nonneg obj s.1 s.2)

/-- C4: for every CompactObject (either variant, any parameters) and every
non-empty finite sequence of `propagate(dt, a_g)` calls — here one first step
followed by arbitrarily many more — the mass after each step is non-negative:
it is clamped at zero by `_update`, regardless of the mass-loss magnitude
`mdot·dt` requested. -/
theorem current_mass_nonneg_after_every_propagate
    (obj : CompactObject) (first : ℚ × Vec3) (rest : List (ℚ × Vec3)) :
    0 ≤ (propagateMany (obj.propagate first.1 first.2) rest).current_mass :=
  propagateMany_mass_nonneg rest (obj.propagate first.1 first.2)
    (propagate_mass_nonneg obj first.1 first.2)

/-- One `propagate` step never writes to the provenance fields or the variant
tag: `_update` copies them unchanged. -/
lemma propagate_preserves_provenance (obj : CompactObject) (dt : ℚ) (a_g : Vec3) :
    (obj.propagate dt a_g).initial_mass = obj.initial_mass ∧
    (obj.propagate dt a_g).initial_position = obj.initial_position ∧
    (obj.propagate dt a_g).initial_velocity = obj.initial_velocity ∧
    (obj.propagate dt a_g).initial_time = obj.initial_time ∧
    (obj.propagate dt a_g).variant = obj.variant :=
  ⟨rfl, rfl, rfl, rfl, rfl⟩

/-- Any finite sequence of `propagate` calls leaves the provenance fields and
the variant tag untouched. -/
lemma propagateMany_preserves_provenance (steps : List (ℚ × Vec3)) :
    ∀ obj : CompactObject,
      (propagateMany obj steps).initial_mass = obj.initial_mass ∧
      (propagateMany obj steps).initial_position = obj.initial_position ∧
      (propagateMany obj steps).initial_velocity = obj.initial_velocity ∧
      (propagateMany obj steps).initial_time = obj.initial_time ∧
      (propagateMany obj steps).variant = obj.variant := by
  induction steps with
  | nil => exact fun obj => ⟨rfl, rfl, rfl, rfl, rfl⟩
  | cons s rest ih => exact fun obj => ih (obj.propagate s.1 s.2)

/-- C9: for every CompactObject (either variant) and every finite sequence of
`propagate(dt, a_g)` calls, the fields `initial_mass`, `initial_position`,
`initial_velocity` and `initial_time` keep exactly their construction-time
values (the variant tag and its parameters are also untouched); only the
`current_*` fields are written. -/
theorem propagate_sequence_preserves_initial_fields
    (obj : CompactObject) (steps : List (ℚ × Vec3)) :
    (propagateMany obj steps).initial_mass = obj.initial_mass ∧
    (propagateMany obj steps).initial_position = obj.initial_position ∧
    (propagateMany obj steps).initial_velocity = obj.initial_velocity ∧
    (propagateMany obj steps).initial_time = obj.initial_time ∧
    (propagateMany obj steps).variant = obj.variant :=
  propagateMany_preserves_provenance steps obj

/-- C10: constructing either variant with `initial_time` omitted (`None`)
initializes `current_time` to 0, makes `get_age` equal to `current_time`
minus zero after any number of steps (in particular age 0 right after
construction); and every construction starts the `current_*` fields equal to
the corresponding `initial_*` fields. -/
theorem construction_defaults_time_zero_and_copies_initial_fields
    (variant : Variant) (m : ℚ) (p v : Vec3) :
    (mkCompactObject variant m p v none).current_time = 0 ∧
    (mkCompactObject variant m p v none).get_age = 0 ∧
    (∀ steps : List (ℚ × Vec3),
      (propagateMany (mkCompactObject variant m p v none) steps).get_age =
        (propagateMany (mkCompactObject variant m p v none) steps).current_time
          - 0) ∧
    (∀ t0 : Option ℚ,
      (mkCompactObject variant m p v t0).current_mass =
        (mkCompactObject variant m p v t0).initial_mass ∧
      (∀ i, (mkCompactObject variant m p v t0).current_position i =
        some ((mkCompactObject variant m p v t0).initial_position i)) ∧
      (∀ i, (mkCompactObject variant m p v t0).current_velocity i =
        some ((mkCompactObject variant m p v t0).initial_velocity i))) := by
  refine ⟨rfl, ?_, fun steps => ?_, fun t0 => ⟨rfl, fun i => rfl, fun i => rfl⟩⟩
  · simp [CompactObject.get_age, mkCompactObject]
  · have h := (propagateMany_preserves_provenance steps
      (mkCompactObject variant m p v none)).2.2.2.1
    simp only [CompactObject.get_age]
    rw [h]
    rfl

/-- C7: the code does NOT guard the division `f_f / current_mass`: starting
from `c7_cloud`, one step of `propagate(1, 0)` drives the mass to exactly
zero, and the next `propagate(1, 0)` call divides the feedback force by the
zero current mass (`0.0 / 0.0`, a NaN), which is then written into every
component of the velocity and of the position — a NaN/Inf-poisoned state,
contrary to the claim. -/
theorem propagate_at_zero_mass_poisons_state :
    (c7_cloud.propagate 1 (fun _ => 0)).current_mass = 0 ∧
    (∀ i, ((c7_cloud.propagate 1 (fun _ => 0)).propagate 1
        (fun _ => 0)).current_velocity i = none) ∧
    (∀ i, ((c7_cloud.propagate 1 (fun _ => 0)).propagate 1
        (fun _ => 0)).current_position i = none) := by
  have hs1 : ratSqrt 1 = 1 := by norm_num [ratSqrt]; decide
  have hs4 : ratSqrt 4 = 2 := by norm_num [ratSqrt]; decide
  refine ⟨?_, fun i => ?_, fun i => ?_⟩
  · simp only [c7_cloud, mkCompactObject, CompactObject.propagate,
      CompactObject._update, CompactObject.calculate_feedback_force_and_massloss,
      np_linalg_norm, np_add, np_mul, np_div]
    norm_num [hs1]
  all_goals
    fin_cases i <;>
      simp only [c7_cloud, mkCompactObject, CompactObject.propagate,
        CompactObject._update, CompactObject.calculate_feedback_force_and_massloss,
        np_linalg_norm, np_add, np_mul, np_div] <;>
      norm_num [hs1, hs4]

/-- C5: `pulsed_feedback` never returns an acceleration vector: for every
pulse configuration — in particular a single pulse evaluated exactly at its
center time — the call to the builtin `sum` with the keyword argument
`axis=1` raises TypeError before any value is produced. -/
theorem pulsed_feedback_always_raises_type_error :
    (∀ (npulses : ℕ) (np_exp : ℚ → ℚ) (t : ℚ) (pos : Vec3)
        (a_0 : Fin 3 → Fin npulses → ℚ) (t_pulse sigma_t : Fin npulses → ℚ),
      pulsed_feedback np_exp t pos a_0 t_pulse sigma_t =
        .error sum_no_keyword_message) ∧
    @pulsed_feedback 1 id 5 (fun _ => 0) (fun i _ => ![1, 2, 3] i)
        (fun _ => 5) (fun _ => 1) = .error sum_no_keyword_message :=
  ⟨fun _ _ _ _ _ _ _ => rfl, rfl⟩

/-- C8: `linear_feedback_no_sign_flip` never completes on 3-vector inputs:
the elementwise comparison `np.sign(a) == np.sign(a_0)` is a 3-element
boolean array, and forcing it into the scalar condition of the conditional
expression raises ValueError, so neither `a_0 + a_1·t` nor the zero clamp is
ever returned. -/
theorem linear_feedback_no_sign_flip_always_raises_value_error :
    (∀ (t : ℚ) (pos a_0 a_1 : Vec3),
      linear_feedback_no_sign_flip t pos a_0 a_1 =
        .error ambiguous_truth_message) ∧
    linear_feedback_no_sign_flip 1 (fun _ => 0) (fun _ => 1) (fun _ => 0) =
      .error ambiguous_truth_message :=
  ⟨fun _ _ _ _ => rfl, rfl⟩

/-- C6: a potential name that matches neither the galpy registry nor the
built-in gravity registry does make `single_object_solve` fail fast — it
never resolves to any force — but the failure is a bare AttributeError from
`getattr`, NOT the descriptive unknown-potential ImportError: the handler
catches only ImportError, so the descriptive raise is unreachable. -/
theorem resolve_potential_unknown_name_raises_attribute_error
    (has_galpy : Bool) (name : String)
    (h_galpy : _get_galpy_potential has_galpy name = none)
    (h_attr : gravity_getattr name = none) :
    resolve_potential has_galpy name = .attributeError name ∧
    (∀ p, resolve_potential has_galpy name ≠ .resolvedGalpy p) ∧
    (∀ f, resolve_potential has_galpy name ≠ .resolvedBuiltin f) ∧
    (∀ s, resolve_potential has_galpy name ≠ .descriptiveImportError s) := by
  simp [resolve_potential, h_galpy, h_attr]

/-- Witness for C6: the concrete name "no_such_potential", with galpy absent,
matches neither registry and resolves to the bare AttributeError. -/
theorem resolve_potential_unknown_name_raises_attribute_error_witness :
    _get_galpy_potential false "no_such_potential" = none ∧
    gravity_getattr "no_such_potential" = none ∧
    resolve_potential false "no_such_potential" =
      .attributeError "no_such_potential" := by
  refine ⟨rfl, rfl, ?_⟩
  exact (resolve_potential_unknown_name_raises_attribute_error false
    "no_such_potential" rfl rfl).1

end ClusterChainDynamics
